import Mathlib

/-!
Shallow embedding of the library-tutorial catalog application: the data
model, the per-entity controller handlers, and the validation chains they
attach, together with theorems settling the specification claims.

Source files embedded: `controllers/authorController.js`,
`controllers/bookController.js`, `controllers/genreController.js`,
`controllers/bookInstanceController.js`, `models/Author.js`.
The Mongoose model files for Book, Genre and BookInstance are not in the
repository snapshot; their record shapes and canonical URLs are modelled
from the specification (section 3 and section 6) and are marked as such.
-/

set_option autoImplicit false

namespace LibraryTutorial

/-- ASCII whitespace recognised by the trimming sanitizer (space, tab,
line feed, vertical tab, form feed, carriage return). -/
def isJsSpace (c : Char) : Bool :=
  c = ' ' || c = Char.ofNat 9 || c = Char.ofNat 10 || c = Char.ofNat 11 ||
  c = Char.ofNat 12 || c = Char.ofNat 13

/-- The `.trim()` sanitizer: removes leading and trailing whitespace. -/
def jsTrim (s : String) : String :=
  String.mk (((s.toList.dropWhile isJsSpace).reverse.dropWhile isJsSpace).reverse)

/-- One character of the `.escape()` sanitizer of validator.js: the
HTML-significant characters ampersand, double quote, single quote,
less-than, greater-than, slash, backslash and backquote are replaced by
entities; every other character is kept. -/
def escapeChar (c : Char) : String :=
  if c = '&' then "&amp;"
  else if c = Char.ofNat 34 then "&quot;"
  else if c = Char.ofNat 39 then "&#x27;"
  else if c = '<' then "&lt;"
  else if c = '>' then "&gt;"
  else if c = '/' then "&#x2F;"
  else if c = '\\' then "&#x5C;"
  else if c = Char.ofNat 96 then "&#96;"
  else String.singleton c

/-- The `.escape()` sanitizer applied to a whole string. -/
def jsEscape (s : String) : String :=
  String.join (s.toList.map escapeChar)

/-- The sanitizer chain `.trim()` followed by `.escape()`, the combination
every controller in the source attaches to its text fields. -/
def trimEscape (s : String) : String := jsEscape (jsTrim s)

/-- One validation failure as express-validator reports it: the offending
field path and a human-readable message. -/
structure FieldError where
  path : String
  msg : String
deriving DecidableEq, Repr

/-- The chain `body(field).trim().isLength(min n)`: the length validator
sees the trimmed value; on failure it contributes one error for the field. -/
def minLenError (raw : String) (n : Nat) (field msg : String) : List FieldError :=
  if n ≤ (jsTrim raw).length then [] else [⟨field, msg⟩]

/-- The chain `body(field).optional(checkFalsy true).isISO8601()`: skipped
entirely when the field is absent or the empty string; otherwise the
external date-format predicate `iso` decides. -/
def dateFieldError (iso : String → Bool) (field msg : String) :
    Option String → List FieldError
  | none => []
  | some s => if s = "" then [] else if iso s then [] else [⟨field, msg⟩]

/-- Author record, from `models/Author.js`: the name fields are required by
the schema but a document under construction may lack either, hence
`Option`; dates are optional. -/
structure Author where
  first_name : Option String
  family_name : Option String
  date_of_birth : Option String := none
  date_of_death : Option String := none
deriving DecidableEq, Repr

/-- Modelled from the spec: `models/Genre.js` is not in the snapshot;
section 3 gives a Genre one required `name` field. -/
structure Genre where
  name : String
deriving DecidableEq, Repr

/-- Modelled from the spec: `models/Book.js` is not in the snapshot;
section 3 gives a Book required `title`, `author` (one Author reference),
`summary`, `isbn`, and a list `genre` of Genre references. References are
identity strings. -/
structure Book where
  title : String
  author : String
  summary : String
  isbn : String
  genre : List String
deriving DecidableEq, Repr

/-- Modelled from the spec: `models/BookInstance.js` is not in the
snapshot; section 3 gives a BookInstance a required `book` reference
(nullable at the document level), required `imprint` and `status`, and an
optional `due_back` date. -/
structure BookInstance where
  book : Option String
  imprint : String
  status : String
  due_back : Option String := none
deriving DecidableEq, Repr

/-- JavaScript truthiness of an optional string field: `undefined` and the
empty string are falsy, every other string is truthy. -/
def truthyStr : Option String → Bool
  | none => false
  | some s => s ≠ ""

/-- The `name` virtual of `models/Author.js`: starts from the empty
string, sets `"family, first"` when both name fields are truthy, and
resets to the empty string when either is falsy. -/
def author_name (a : Author) : String :=
  let fullname : String := ""
  let fullname :=
    if truthyStr a.first_name && truthyStr a.family_name then
      (a.family_name.getD "") ++ ", " ++ (a.first_name.getD "")
    else fullname
  let fullname :=
    if !(truthyStr a.first_name) || !(truthyStr a.family_name) then ""
    else fullname
  fullname

/-- The document store: one collection per entity kind, each a list of
identity-record pairs. -/
structure Store where
  authors : List (String × Author) := []
  books : List (String × Book) := []
  genres : List (String × Genre) := []
  bookinstances : List (String × BookInstance) := []
deriving DecidableEq, Repr

def emptyStore : Store := {}

/-- `Model.findById`: the first record with the given identity, or the
explicit not-found marker. -/
def findById {α : Type} (l : List (String × α)) (id : String) : Option α :=
  (l.find? (fun p => p.1 == id)).map (fun p => p.2)

/-- `Model.findByIdAndRemove`: drop the record with the given identity
(no-op when absent). -/
def findByIdAndRemove {α : Type} (l : List (String × α)) (id : String) :
    List (String × α) :=
  l.filter (fun p => p.1 != id)

/-- `Model.findByIdAndUpdate`: replace the record at the given identity,
keeping the identity; no-op when absent (no upsert). -/
def findByIdAndUpdate {α : Type} (l : List (String × α)) (id : String) (r : α) :
    List (String × α) :=
  l.map (fun p => if p.1 == id then (p.1, r) else p)

/-- `Book.find(author: id)`. -/
def booksByAuthor (s : Store) (id : String) : List (String × Book) :=
  s.books.filter (fun p => p.2.author == id)

/-- `Book.find(genre: id)`: matches books whose genre list contains the
identity. -/
def booksWithGenre (s : Store) (id : String) : List (String × Book) :=
  s.books.filter (fun p => p.2.genre.contains id)

/-- `BookInstance.find(book: id)`. -/
def instancesOfBook (s : Store) (id : String) : List (String × BookInstance) :=
  s.bookinstances.filter (fun p => p.2.book == some id)

/-- `Genre.findOne(name: n)`: the first genre whose name equals the given
(sanitized) name. -/
def findOneGenreByName (s : Store) (n : String) : Option (String × Genre) :=
  s.genres.find? (fun p => p.2.name == n)

/-- One observable step a handler takes: committing a redirect, passing a
structured error to `next`, raising a runtime error, or rendering a named
view with the payload the source passes to `res.render`. -/
inductive Action where
  | redirect (path : String)
  | nextError (message : String) (status : Nat)
  | throwReferenceError (varName : String)
  | throwTypeError (message : String)
  | renderAuthorDetail (title : String) (author : Author)
      (author_books : List (String × Book))
  | renderAuthorForm (title : String) (author : Author)
      (errors : Option (List FieldError))
  | renderAuthorDelete (title : String) (author : Option Author)
      (author_books : List (String × Book))
  | renderBookDetail (title : String) (book : Book)
      (book_instances : List (String × BookInstance))
  | renderBookForm (title : String) (authors : List (String × Author))
      (genres : List (String × Genre × Bool)) (book : Option Book)
      (errors : Option (List FieldError))
  | renderBookDelete (title : String) (book : Option Book)
      (book_instances : List (String × BookInstance))
  | renderGenreDetail (title : String) (genre : Genre)
      (genre_books : List (String × Book))
  | renderGenreForm (title : String) (genre : Genre)
      (errors : Option (List FieldError))
  | renderGenreDelete (title : String) (genre : Option Genre)
      (genre_books : List (String × Book))
  | renderBookInstanceDetail (title : String) (bookinstance : BookInstance)
  | renderBookInstanceForm (title : String) (book_list : List (String × Book))
      (selected_book : Option String) (bookinstance : BookInstance)
      (errors : Option (List FieldError))
  | renderBookInstanceDelete (title : String)
      (bookinstance : Option BookInstance)
deriving DecidableEq, Repr

/-- True on the render of any delete-confirmation view. -/
def isConfirmationRender : Action → Bool
  | Action.renderAuthorDelete _ _ _ => true
  | Action.renderBookDelete _ _ _ => true
  | Action.renderGenreDelete _ _ _ => true
  | Action.renderBookInstanceDelete _ _ => true
  | _ => false

/-- `author_detail` (authorController.js 16-34): fetch the author and the
books referencing it; a missing author becomes a 404 error passed to
`next`, otherwise the detail view is rendered. -/
def author_detail (id : String) (s : Store) : List Action :=
  match findById s.authors id with
  | none => [Action.nextError "Author not found" 404]
  | some a => [Action.renderAuthorDetail "Author Detail" a (booksByAuthor s id)]

/-- `book_detail` (bookController.js 45-63). -/
def book_detail (id : String) (s : Store) : List Action :=
  match findById s.books id with
  | none => [Action.nextError "Book not found." 404]
  | some b => [Action.renderBookDetail b.title b (instancesOfBook s id)]

/-- `genre_detail` (genreController.js 17-36). -/
def genre_detail (id : String) (s : Store) : List Action :=
  match findById s.genres id with
  | none => [Action.nextError "Genre Not Found" 404]
  | some g => [Action.renderGenreDetail "Genre Details" g (booksWithGenre s id)]

/-- `bookinstance_detail` (bookInstanceController.js 21-37): the view title
interpolates `bookInstance.book.title`, so a dangling populated book
reference raises a TypeError. -/
def bookinstance_detail (id : String) (s : Store) : List Action :=
  match findById s.bookinstances id with
  | none => [Action.nextError "Book copy not found" 404]
  | some bi =>
    match bi.book.bind (findById s.books) with
    | none => [Action.throwTypeError "Cannot read properties of null (reading title)"]
    | some b => [Action.renderBookInstanceDetail ("Book Status for " ++ b.title) bi]

/-- `author_update_get` (authorController.js 144-157). -/
def author_update_get (id : String) (s : Store) : List Action :=
  match findById s.authors id with
  | none => [Action.nextError "Author not found." 404]
  | some a => [Action.renderAuthorForm "Update Form" a none]

/-- `genre_update_get` (genreController.js 124-137). -/
def genre_update_get (id : String) (s : Store) : List Action :=
  match findById s.genres id with
  | none => [Action.nextError "Genre does not exist." 404]
  | some g => [Action.renderGenreForm "Update Genre" g none]

/-- `bookinstance_update_get` (bookInstanceController.js 133-152): the
render passes `selected_book: bookInstance.book.id`, so a dangling
populated book reference raises a TypeError. -/
def bookinstance_update_get (id : String) (s : Store) : List Action :=
  match findById s.bookinstances id with
  | none => [Action.nextError "Book Instance not found." 404]
  | some bi =>
    match bi.book.bind (findById s.books) with
    | none => [Action.throwTypeError "Cannot read properties of null (reading id)"]
    | some _ =>
      [Action.renderBookInstanceForm "Update Book Instance" s.books bi.book bi none]

/-- Mark each genre of the reference list as checked when its identity is
in the selected list (the `genre.checked` mutation of bookController.js). -/
def markChecked (genres : List (String × Genre)) (selected : List String) :
    List (String × Genre × Bool) :=
  genres.map (fun p => (p.1, p.2, selected.contains p.1))

/-- `book_update_get` (bookController.js 207-234): the not-found branch
constructs an Error with status 404 in the variable `error` but then calls
`next(err)`; evaluating the undeclared `err` raises a ReferenceError, which
the asyncHandler wrapper forwards instead of the constructed 404 error. -/
def book_update_get (id : String) (s : Store) : List Action :=
  match findById s.books id with
  | none => [Action.throwReferenceError "err"]
  | some b =>
    [Action.renderBookForm "Update Book" s.authors (markChecked s.genres b.genre)
      (some b) none]

/-- `author_delete_get` (authorController.js 102-118): the redirect on a
missing author is not followed by a return, so the handler still falls
through and attempts the confirmation render. -/
def author_delete_get (id : String) (s : Store) : List Action :=
  let author := findById s.authors id
  (if author = none then [Action.redirect "/catalog/authors"] else []) ++
  [Action.renderAuthorDelete "Delete Author" author (booksByAuthor s id)]

/-- `book_delete_get` (bookController.js 158-175): same missing early
return after the redirect. -/
def book_delete_get (id : String) (s : Store) : List Action :=
  let book := findById s.books id
  (if book = none then [Action.redirect "/catalog/books"] else []) ++
  [Action.renderBookDelete "Delete Book" book (instancesOfBook s id)]

/-- `genre_delete_get` (genreController.js 84-100): same missing early
return after the redirect. -/
def genre_delete_get (id : String) (s : Store) : List Action :=
  let genre := findById s.genres id
  (if genre = none then [Action.redirect "/catalog/genres"] else []) ++
  [Action.renderGenreDelete "Delete Genre" genre (booksWithGenre s id)]

/-- `bookinstance_delete_get` (bookInstanceController.js 95-109): same
missing early return after the redirect. -/
def bookinstance_delete_get (id : String) (s : Store) : List Action :=
  let bookInstance := findById s.bookinstances id
  (if bookInstance = none then [Action.redirect "/catalog/bookinstances"] else []) ++
  [Action.renderBookInstanceDelete "Delete Book Instance" bookInstance]

/-- `author_delete_post` (authorController.js 121-141): when the author
has books the confirmation view is re-rendered and nothing is deleted;
otherwise the identity submitted in the form body is removed and the list
view is the redirect target. -/
def author_delete_post (paramsId bodyAuthorid : String) (s : Store) :
    Store × List Action :=
  let author := findById s.authors paramsId
  let allBooksByAuthor := booksByAuthor s paramsId
  if allBooksByAuthor.length > 0 then
    (s, [Action.renderAuthorDelete "Delete Author" author allBooksByAuthor])
  else
    ({ s with authors := findByIdAndRemove s.authors bodyAuthorid },
     [Action.redirect "/catalog/authors"])

/-- `book_delete_post` (bookController.js 178-204): a missing book
redirects (with an early return); a book with instances re-renders the
confirmation; otherwise the identity from the form body is removed. -/
def book_delete_post (paramsId bodyBookid : String) (s : Store) :
    Store × List Action :=
  let allBookInstances := instancesOfBook s paramsId
  match findById s.books paramsId with
  | none => (s, [Action.redirect "/catalog/books"])
  | some b =>
    if allBookInstances.length > 0 then
      (s, [Action.renderBookDelete "Delete Book" (some b) allBookInstances])
    else
      ({ s with books := findByIdAndRemove s.books bodyBookid },
       [Action.redirect "/catalog/books"])

/-- `bookinstance_delete_post` (bookInstanceController.js 116-131): the
record is looked up by the identity in the form body and removed only when
it exists and its status is exactly Available; otherwise the confirmation
view is rendered again. -/
def bookinstance_delete_post (bodyBookinstanceid : String) (s : Store) :
    Store × List Action :=
  match findById s.bookinstances bodyBookinstanceid with
  | some bi =>
    if bi.status = "Available" then
      ({ s with bookinstances := findByIdAndRemove s.bookinstances bodyBookinstanceid },
       [Action.redirect "/catalog/bookinstances"])
    else
      (s, [Action.renderBookInstanceDelete "Delete Book Instance" (some bi)])
  | none => (s, [Action.renderBookInstanceDelete "Delete Book Instance" none])

/-- Validation chain of `genre_create_post` (genreController.js 49-52):
name trimmed, at least 3 characters, escaped. -/
def genreCreateErrors (raw : String) : List FieldError :=
  minLenError raw 3 "name" "Genre must be at least 3 characters"

/-- Validation chain of `genre_update_post` (genreController.js 141-144):
name trimmed, at least 1 character, escaped. -/
def genreUpdateErrors (raw : String) : List FieldError :=
  minLenError raw 1 "name" "An updated genre name must be provided"

/-- The Genre document both genre POST handlers construct from the
sanitized name. -/
def genreFromName (raw : String) : Genre := { name := trimEscape raw }

/-- `genre_create_post` (genreController.js 48-81): on validation failure
the form is re-rendered with the errors; otherwise an existing genre with
the same sanitized name wins a redirect to its canonical path, and only
when none exists is the new record saved. -/
def genre_create_post (newId raw : String) (s : Store) : Store × List Action :=
  let errors := genreCreateErrors raw
  let genre := genreFromName raw
  if errors.isEmpty then
    match findOneGenreByName s genre.name with
    | some (gid, _) => (s, [Action.redirect ("/catalog/genre/" ++ gid)])
    | none =>
      ({ s with genres := s.genres ++ [(newId, genre)] },
       [Action.redirect ("/catalog/genre/" ++ newId)])
  else
    (s, [Action.renderGenreForm "Create Genre" genre (some errors)])

/-- `genre_update_post` (genreController.js 140-171): on validation
failure the form is re-rendered with the errors and nothing is written;
otherwise the record is replaced and the redirect reads `.url` of the
value `findByIdAndUpdate` returned, a TypeError when the identity was
absent. -/
def genre_update_post (paramsId raw : String) (s : Store) : Store × List Action :=
  let errors := genreUpdateErrors raw
  let genre := genreFromName raw
  if errors.isEmpty then
    match findById s.genres paramsId with
    | none => (s, [Action.throwTypeError "Cannot read properties of null (reading url)"])
    | some _ =>
      ({ s with genres := findByIdAndUpdate s.genres paramsId genre },
       [Action.redirect ("/catalog/genre/" ++ paramsId)])
  else
    (s, [Action.renderGenreForm "Update Genre" genre (some errors)])

/-- Raw author form fields as submitted. -/
structure AuthorForm where
  first_name : String
  family_name : String
  date_of_birth : Option String := none
  date_of_death : Option String := none
deriving DecidableEq, Repr

/-- Validation chains of `author_update_post` (authorController.js
161-178): required trimmed name fields (the family-name chain carries no
message, so express-validator reports its default), optional ISO dates. -/
def authorUpdateErrors (iso : String → Bool) (f : AuthorForm) : List FieldError :=
  minLenError f.first_name 1 "first_name" "First Name must be provided."
  ++ minLenError f.family_name 1 "family_name" "Invalid value"
  ++ dateFieldError iso "date_of_birth" "Invalid date of birth or not specified"
       f.date_of_birth
  ++ dateFieldError iso "date_of_death" "Invalid date of death or not specified"
       f.date_of_death

/-- The Author document the POST handlers construct from the sanitized
fields. -/
def authorFromForm (f : AuthorForm) : Author :=
  { first_name := some (trimEscape f.first_name),
    family_name := some (trimEscape f.family_name),
    date_of_birth := f.date_of_birth,
    date_of_death := f.date_of_death }

/-- `author_update_post` (authorController.js 160-206): on validation
failure the form is re-rendered with the sanitized author and the errors,
with no store write; otherwise the record is replaced and the redirect
reads `.url` of the returned value, a TypeError when the identity was
absent. -/
def author_update_post (paramsId : String) (iso : String → Bool)
    (f : AuthorForm) (s : Store) : Store × List Action :=
  let errors := authorUpdateErrors iso f
  let author := authorFromForm f
  if errors.isEmpty then
    match findById s.authors paramsId with
    | none => (s, [Action.throwTypeError "Cannot read properties of null (reading url)"])
    | some _ =>
      ({ s with authors := findByIdAndUpdate s.authors paramsId author },
       [Action.redirect ("/catalog/author/" ++ paramsId)])
  else
    (s, [Action.renderAuthorForm "Update Author" author (some errors)])

/-- The shape of the `genre` field of a submitted book form: absent, a
single value, or a list of values. -/
inductive GenreField where
  | undef
  | single (value : String)
  | list (values : List String)
deriving DecidableEq, Repr

/-- JavaScript `!value` on the genre field: `undefined` and the empty
string are falsy; arrays are always truthy. -/
def jsNotGenre : GenreField → Bool
  | GenreField.undef => true
  | GenreField.single v => v = ""
  | GenreField.list _ => false

/-- `b instanceof Array` for a Boolean primitive `b`: always false, since
a primitive is not an object. -/
def boolInstanceofArray (_ : Bool) : Bool := false

/-- The genre normalizer of `book_create_post` (bookController.js 84-90):
an array is left alone, an absent field becomes the empty list, and a
single value becomes a one-element list via `new Array(value)`. -/
def book_create_genre_normalizer : GenreField → GenreField
  | GenreField.list vs => GenreField.list vs
  | GenreField.undef => GenreField.list []
  | GenreField.single v => GenreField.list [v]

/-- The genre normalizer of `book_update_post` (bookController.js
239-248). Its guard is written `!req.body.genre instanceof Array`; `!`
binds tighter than `instanceof`, so the guard asks whether a Boolean is an
Array, which never holds, and the field is passed through unchanged. The
arms of the dead branch mirror the create normalizer. -/
def book_update_genre_normalizer (g : GenreField) : GenreField :=
  if boolInstanceofArray (jsNotGenre g) then
    match g with
    | GenreField.undef => GenreField.list []
    | GenreField.single v => GenreField.list [v]
    | GenreField.list vs => GenreField.list vs
  else g

/-- `body("genre.*").escape()`: the wildcard matches only the elements of
an array value, so a single (non-list) value or an absent field is left
unescaped. -/
def escapeGenreField : GenreField → GenreField
  | GenreField.list vs => GenreField.list (vs.map jsEscape)
  | g => g

/-- The Mongoose cast of a value assigned to an array schema path: an
array is stored as is, a single value is cast to a one-element array, an
absent value leaves the path empty. -/
def castGenreToList : GenreField → List String
  | GenreField.undef => []
  | GenreField.single v => [v]
  | GenreField.list vs => vs

/-- Raw book form fields as submitted. -/
structure BookForm where
  title : String
  author : String
  summary : String
  isbn : String
  genre : GenreField
deriving DecidableEq, Repr

/-- Validation chains shared verbatim by `book_create_post` (bookController.js
92-108) and `book_update_post` (bookController.js 251-264): the four
scalar fields are trimmed, required nonempty, and escaped; the genre
wildcard chain only sanitizes. -/
def bookFormErrors (f : BookForm) : List FieldError :=
  minLenError f.title 1 "title" "Title must not be empty"
  ++ minLenError f.author 1 "author" "Author must not be empty"
  ++ minLenError f.summary 1 "summary" "Summary must not be empty"
  ++ minLenError f.isbn 1 "isbn" "ISBN must not be empty"

/-- The Book document `book_create_post` constructs: sanitized scalars and
the normalized, element-escaped genre list. -/
def bookFromCreateForm (f : BookForm) : Book :=
  { title := trimEscape f.title,
    author := trimEscape f.author,
    summary := trimEscape f.summary,
    isbn := trimEscape f.isbn,
    genre := castGenreToList (escapeGenreField (book_create_genre_normalizer f.genre)) }

/-- The Book document `book_update_post` constructs (bookController.js
270-277): the constructor replaces an undefined genre by the empty list;
any other value arrives un-normalized (see the update normalizer) and is
cast by Mongoose. -/
def bookFromUpdateForm (f : BookForm) : Book :=
  { title := trimEscape f.title,
    author := trimEscape f.author,
    summary := trimEscape f.summary,
    isbn := trimEscape f.isbn,
    genre :=
      match escapeGenreField (book_update_genre_normalizer f.genre) with
      | GenreField.undef => []
      | g => castGenreToList g }

/-- `book_create_post` (bookController.js 82-155): on validation failure
the form is re-rendered with the reference lists, the checked genre marks,
the sanitized book and the errors, with no store write; otherwise the book
is saved and its canonical path is the redirect target. -/
def book_create_post (newId : String) (f : BookForm) (s : Store) :
    Store × List Action :=
  let errors := bookFormErrors f
  let book := bookFromCreateForm f
  if errors.isEmpty then
    ({ s with books := s.books ++ [(newId, book)] },
     [Action.redirect ("/catalog/book/" ++ newId)])
  else
    (s, [Action.renderBookForm "Create Book" s.authors
          (markChecked s.genres book.genre) (some book) (some errors)])

/-- `book_update_post` (bookController.js 237-307): on validation failure
the form is re-rendered with the reference lists, checked marks, sanitized
book and errors, with no store write; otherwise the record is replaced and
the redirect reads `.url` of the returned value, a TypeError when the
identity was absent. -/
def book_update_post (paramsId : String) (f : BookForm) (s : Store) :
    Store × List Action :=
  let errors := bookFormErrors f
  let book := bookFromUpdateForm f
  if errors.isEmpty then
    match findById s.books paramsId with
    | none => (s, [Action.throwTypeError "Cannot read properties of null (reading url)"])
    | some _ =>
      ({ s with books := findByIdAndUpdate s.books paramsId book },
       [Action.redirect ("/catalog/book/" ++ paramsId)])
  else
    (s, [Action.renderBookForm "Update Book" s.authors
          (markChecked s.genres book.genre) (some book) (some errors)])

/-- Raw book-instance form fields as submitted. -/
structure BookInstanceForm where
  book : String
  imprint : String
  status : String
  due_back : Option String := none
deriving DecidableEq, Repr

/-- Validation chains of `bookinstance_update_post` (bookInstanceController.js
156-174): required book and status, optional imprint (skipped when falsy,
default message otherwise) and optional trimmed ISO due-back date. -/
def bookinstanceUpdateErrors (iso : String → Bool) (f : BookInstanceForm) :
    List FieldError :=
  minLenError f.book 1 "book" "A book title must be supplied"
  ++ (if f.imprint = "" then [] else minLenError f.imprint 1 "imprint" "Invalid value")
  ++ dateFieldError (fun d => iso (jsTrim d)) "due_back" "Invalid value" f.due_back
  ++ minLenError f.status 1 "status" "A status must be supplied."

/-- The BookInstance document `bookinstance_update_post` constructs: the
book field holds the fetched document, which Mongoose casts back to its
identity, or null when the lookup failed; a skipped (falsy) imprint stays
raw. -/
def bookinstanceFromForm (s : Store) (f : BookInstanceForm) : BookInstance :=
  { book :=
      match findById s.books (trimEscape f.book) with
      | some _ => some (trimEscape f.book)
      | none => none,
    imprint := if f.imprint = "" then f.imprint else trimEscape f.imprint,
    status := trimEscape f.status,
    due_back := f.due_back }

/-- `bookinstance_update_post` (bookInstanceController.js 155-208): on
validation failure the form is re-rendered with the book list, the
selection taken from `bookInstance.book.id` (a TypeError when the
submitted book reference does not resolve) and the sanitized instance, but
without the errors list, and nothing is written; otherwise the record is
replaced and the redirect reads `.url` of the returned value, a TypeError
when the identity was absent. -/
def bookinstance_update_post (paramsId : String) (iso : String → Bool)
    (f : BookInstanceForm) (s : Store) : Store × List Action :=
  let errors := bookinstanceUpdateErrors iso f
  let bookInstance := bookinstanceFromForm s f
  if errors.isEmpty then
    match findById s.bookinstances paramsId with
    | none => (s, [Action.throwTypeError "Cannot read properties of null (reading url)"])
    | some _ =>
      ({ s with bookinstances := findByIdAndUpdate s.bookinstances paramsId bookInstance },
       [Action.redirect ("/catalog/bookinstance/" ++ paramsId)])
  else
    match bookInstance.book with
    | none => (s, [Action.throwTypeError "Cannot read properties of null (reading id)"])
    | some selected =>
      (s, [Action.renderBookInstanceForm "Update Book Instance" s.books
            (some selected) bookInstance none])

/-! Theorems settling the claims. -/

/-- C2: a Genre create-submit whose sanitized name passes validation and
equals the name of an existing genre inserts nothing and redirects to the
existing genre's canonical path; when no genre has that name, the record
is saved and the redirect goes to the new record's canonical path. -/
theorem C2_genre_create_dedup (newId raw : String) (s : Store)
    (hv : 3 ≤ (jsTrim raw).length) :
    (∀ gid g, findOneGenreByName s (trimEscape raw) = some (gid, g) →
      genre_create_post newId raw s = (s, [Action.redirect ("/catalog/genre/" ++ gid)]))
  ∧ (findOneGenreByName s (trimEscape raw) = none →
      genre_create_post newId raw s =
        ({ s with genres := s.genres ++ [(newId, genreFromName raw)] },
         [Action.redirect ("/catalog/genre/" ++ newId)])) := by
  have he : (genreCreateErrors raw).isEmpty = true := by
    simp [genreCreateErrors, minLenError, hv]
  constructor
  · intro gid g hfind
    simp only [genre_create_post, he, if_true, genreFromName]
    rw [hfind]
  · intro hfind
    simp only [genre_create_post, he, if_true, genreFromName]
    rw [hfind]

def C2store : Store := { genres := [("g1", { name := "Fantasy" })] }

theorem C2_genre_create_dedup_witness :
    genre_create_post "g9" " Fantasy " C2store =
      (C2store, [Action.redirect "/catalog/genre/g1"]) ∧
    genre_create_post "g9" "Horror" C2store =
      ({ C2store with genres := C2store.genres ++ [("g9", genreFromName "Horror")] },
       [Action.redirect "/catalog/genre/g9"]) := by
  constructor
  · exact (C2_genre_create_dedup "g9" " Fantasy " C2store (by decide)).1 "g1"
      { name := "Fantasy" } (by decide)
  · exact (C2_genre_create_dedup "g9" "Horror" C2store (by decide)).2 (by decide)

/-- C3: a Book create-submit whose title is empty after trimming yields a
failure list containing the title message, re-renders the create form with
the sanitized book and that failure list, and writes nothing. -/
theorem C3_book_create_empty_title (newId : String) (f : BookForm) (s : Store)
    (h : jsTrim f.title = "") :
    FieldError.mk "title" "Title must not be empty" ∈ bookFormErrors f ∧
    book_create_post newId f s =
      (s, [Action.renderBookForm "Create Book" s.authors
            (markChecked s.genres (bookFromCreateForm f).genre)
            (some (bookFromCreateForm f)) (some (bookFormErrors f))]) := by
  have h1 : minLenError f.title 1 "title" "Title must not be empty" =
      [⟨"title", "Title must not be empty"⟩] := by
    simp [minLenError, h]
  have h2 : (bookFormErrors f).isEmpty = false := by
    unfold bookFormErrors
    rw [h1]
    rfl
  constructor
  · unfold bookFormErrors
    rw [h1]
    simp
  · simp [book_create_post, h2]

def C3store : Store :=
  { authors := [("a1", { first_name := some "Jane", family_name := some "Austen" })],
    genres := [("g1", { name := "Fantasy" })] }

def C3form : BookForm :=
  { title := "   ", author := "a1", summary := "S", isbn := "123", genre := GenreField.undef }

theorem C3_book_create_empty_title_witness :
    FieldError.mk "title" "Title must not be empty" ∈ bookFormErrors C3form ∧
    book_create_post "b9" C3form C3store =
      (C3store, [Action.renderBookForm "Create Book" C3store.authors
        (markChecked C3store.genres (bookFromCreateForm C3form).genre)
        (some (bookFromCreateForm C3form)) (some (bookFormErrors C3form))]) :=
  C3_book_create_empty_title "b9" C3form C3store (by decide)

/-- C4: the derived full name of an Author is the empty string when either
name field is absent (falsy), and family name, comma, space, first name
when both are present and nonempty. -/
theorem C4_author_full_name (a : Author) :
    ((truthyStr a.first_name = false ∨ truthyStr a.family_name = false) →
      author_name a = "")
  ∧ (∀ fn fam, a.first_name = some fn → a.family_name = some fam →
      fn ≠ "" → fam ≠ "" → author_name a = fam ++ ", " ++ fn) := by
  constructor
  · intro h
    rcases h with h | h <;> simp [author_name, h]
  · intro fn fam h1 h2 hfn hfam
    have t1 : truthyStr (some fn) = true := by simp [truthyStr, hfn]
    have t2 : truthyStr (some fam) = true := by simp [truthyStr, hfam]
    simp [author_name, h1, h2, t1, t2]

theorem C4_author_full_name_witness :
    author_name { first_name := some "Jane", family_name := some "Austen" } =
      "Austen, Jane" ∧
    author_name { first_name := none, family_name := some "Austen" } = "" := by
  constructor
  · exact (C4_author_full_name
      { first_name := some "Jane", family_name := some "Austen" }).2
      "Jane" "Austen" rfl rfl (by decide) (by decide)
  · exact (C4_author_full_name
      { first_name := none, family_name := some "Austen" }).1 (Or.inl rfl)

/-- C5: for every entity kind, a detail request whose identity resolves to
no record produces exactly one action, a structured 404 error passed to
the error handler, and renders nothing. -/
theorem C5_detail_not_found (id : String) (s : Store) :
    (findById s.authors id = none →
      author_detail id s = [Action.nextError "Author not found" 404])
  ∧ (findById s.books id = none →
      book_detail id s = [Action.nextError "Book not found." 404])
  ∧ (findById s.genres id = none →
      genre_detail id s = [Action.nextError "Genre Not Found" 404])
  ∧ (findById s.bookinstances id = none →
      bookinstance_detail id s = [Action.nextError "Book copy not found" 404]) := by
  refine ⟨fun h => ?_, fun h => ?_, fun h => ?_, fun h => ?_⟩ <;>
    simp [author_detail, book_detail, genre_detail, bookinstance_detail, h]

theorem C5_detail_not_found_witness :
    author_detail "x" emptyStore = [Action.nextError "Author not found" 404] ∧
    book_detail "x" emptyStore = [Action.nextError "Book not found." 404] ∧
    genre_detail "x" emptyStore = [Action.nextError "Genre Not Found" 404] ∧
    bookinstance_detail "x" emptyStore =
      [Action.nextError "Book copy not found" 404] :=
  ⟨(C5_detail_not_found "x" emptyStore).1 rfl,
   (C5_detail_not_found "x" emptyStore).2.1 rfl,
   (C5_detail_not_found "x" emptyStore).2.2.1 rfl,
   (C5_detail_not_found "x" emptyStore).2.2.2 rfl⟩

/-- C10: a BookInstance delete-submit removes the record and redirects to
the instance list exactly when the identity from the form body resolves
and the status is Available; a missing record or any other status leaves
the store unchanged and renders the confirmation view again. -/
theorem C10_bookinstance_delete_post_spec (bid : String) (s : Store) :
    (∀ bi, findById s.bookinstances bid = some bi → bi.status = "Available" →
      bookinstance_delete_post bid s =
        ({ s with bookinstances := findByIdAndRemove s.bookinstances bid },
         [Action.redirect "/catalog/bookinstances"]))
  ∧ (∀ bi, findById s.bookinstances bid = some bi → bi.status ≠ "Available" →
      bookinstance_delete_post bid s =
        (s, [Action.renderBookInstanceDelete "Delete Book Instance" (some bi)]))
  ∧ (findById s.bookinstances bid = none →
      bookinstance_delete_post bid s =
        (s, [Action.renderBookInstanceDelete "Delete Book Instance" none])) := by
  refine ⟨fun bi h hs => ?_, fun bi h hs => ?_, fun h => ?_⟩ <;>
    simp [bookinstance_delete_post, h]
  · simp [hs]
  · simp [hs]

def C10store : Store :=
  { bookinstances :=
      [("i1", { book := some "b1", imprint := "Imp", status := "Available" }),
       ("i2", { book := some "b1", imprint := "Imp", status := "Loaned" })] }

theorem C10_bookinstance_delete_post_spec_witness :
    bookinstance_delete_post "i1" C10store =
      ({ C10store with bookinstances := findByIdAndRemove C10store.bookinstances "i1" },
       [Action.redirect "/catalog/bookinstances"]) ∧
    bookinstance_delete_post "i2" C10store =
      (C10store, [Action.renderBookInstanceDelete "Delete Book Instance"
        (some { book := some "b1", imprint := "Imp", status := "Loaned" })]) ∧
    bookinstance_delete_post "zz" C10store =
      (C10store, [Action.renderBookInstanceDelete "Delete Book Instance" none]) :=
  ⟨(C10_bookinstance_delete_post_spec "i1" C10store).1
     { book := some "b1", imprint := "Imp", status := "Available" } (by decide) rfl,
   (C10_bookinstance_delete_post_spec "i2" C10store).2.1
     { book := some "b1", imprint := "Imp", status := "Loaned" } (by decide) (by decide),
   (C10_bookinstance_delete_post_spec "zz" C10store).2.2 (by decide)⟩

/-- Store with a BookInstance whose book reference does not resolve: the
book collection is empty while an instance points at identity b1. -/
def C1badStore : Store :=
  { bookinstances := [("i1", { book := some "b1", imprint := "Imp", status := "Available" })] }

/-- C1, counterexample: a Book delete-submit for identity b1 finds a
dependent BookInstance, yet the handler responds with a redirect and never
re-renders the delete-confirmation view, because the missing book record
is handled first; the claim as stated demands a redisplay whenever
dependents exist. -/
theorem C1_delete_with_dependents_counterexample :
    (instancesOfBook C1badStore "b1").length > 0 ∧
    book_delete_post "b1" "b1" C1badStore =
      (C1badStore, [Action.redirect "/catalog/books"]) ∧
    (book_delete_post "b1" "b1" C1badStore).2.any isConfirmationRender = false := by
  decide

/-- C1, amended: an Author delete-submit with dependent books, and a Book
delete-submit whose book still exists and has dependent instances, leave
the store unchanged and re-render the confirmation view with the
dependents; a Book delete-submit whose book no longer exists instead
redirects to the book list, also without deleting. -/
theorem C1_delete_post_dependents_amended (paramsId bodyId : String) (s : Store) :
    ((booksByAuthor s paramsId).length > 0 →
      author_delete_post paramsId bodyId s =
        (s, [Action.renderAuthorDelete "Delete Author" (findById s.authors paramsId)
              (booksByAuthor s paramsId)]))
  ∧ (∀ b, findById s.books paramsId = some b →
      (instancesOfBook s paramsId).length > 0 →
      book_delete_post paramsId bodyId s =
        (s, [Action.renderBookDelete "Delete Book" (some b) (instancesOfBook s paramsId)]))
  ∧ (findById s.books paramsId = none →
      book_delete_post paramsId bodyId s = (s, [Action.redirect "/catalog/books"])) := by
  refine ⟨fun h => ?_, fun b hb h => ?_, fun hb => ?_⟩
  · simp [author_delete_post, h]
  · simp [book_delete_post, hb, h]
  · simp [book_delete_post, hb]

def C1wStore : Store :=
  { authors := [("a1", { first_name := some "Jane", family_name := some "Austen" })],
    books := [("b1", { title := "Emma", author := "a1", summary := "S", isbn := "123",
                       genre := [] })],
    bookinstances := [("i1", { book := some "b1", imprint := "Imp", status := "Loaned" })] }

theorem C1_delete_post_dependents_amended_witness :
    author_delete_post "a1" "a1" C1wStore =
      (C1wStore, [Action.renderAuthorDelete "Delete Author"
        (findById C1wStore.authors "a1") (booksByAuthor C1wStore "a1")]) ∧
    book_delete_post "b1" "b1" C1wStore =
      (C1wStore, [Action.renderBookDelete "Delete Book"
        (some { title := "Emma", author := "a1", summary := "S", isbn := "123", genre := [] })
        (instancesOfBook C1wStore "b1")]) ∧
    book_delete_post "zz" "zz" C1wStore =
      (C1wStore, [Action.redirect "/catalog/books"]) :=
  ⟨(C1_delete_post_dependents_amended "a1" "a1" C1wStore).1 (by decide),
   (C1_delete_post_dependents_amended "b1" "b1" C1wStore).2.1
     { title := "Emma", author := "a1", summary := "S", isbn := "123", genre := [] }
     (by decide) (by decide),
   (C1_delete_post_dependents_amended "zz" "zz" C1wStore).2.2 (by decide)⟩

/-- True on a structured error carrying status 404. -/
def is404Error : Action → Bool
  | Action.nextError _ st => st == 404
  | _ => false

/-- C6: the Author, Genre and BookInstance update-form handlers pass a
structured 404 error to the error handler on a missing identity, but the
Book handler constructs its 404 error in `error` and then calls
`next(err)` with an undeclared variable, so a ReferenceError propagates
instead of the constructed 404 error; in all four cases the update form is
not rendered. -/
theorem C6_update_get_not_found_eval :
    book_update_get "b1" emptyStore = [Action.throwReferenceError "err"] ∧
    (book_update_get "b1" emptyStore).any is404Error = false ∧
    author_update_get "a1" emptyStore = [Action.nextError "Author not found." 404] ∧
    genre_update_get "g1" emptyStore = [Action.nextError "Genre does not exist." 404] ∧
    bookinstance_update_get "i1" emptyStore =
      [Action.nextError "Book Instance not found." 404] := by
  decide

/-- C7, counterexample: a Genre delete-confirmation request whose identity
resolves to no record does respond with a redirect to the list view, but
the handler still falls through and attempts the confirmation render; the
claim as stated says the redirect happens instead of rendering. -/
theorem C7_delete_get_missing_counterexample :
    findById emptyStore.genres "g1" = none ∧
    genre_delete_get "g1" emptyStore =
      [Action.redirect "/catalog/genres",
       Action.renderGenreDelete "Delete Genre" none []] ∧
    (genre_delete_get "g1" emptyStore).any isConfirmationRender = true := by
  decide

/-- C7, amended: for every entity kind, a delete-confirmation request
whose identity resolves to no record first commits a redirect to that
entity's list view, and then, for lack of an early return, additionally
attempts to render the confirmation template with a null record. -/
theorem C7_delete_get_missing_amended (id : String) (s : Store) :
    (findById s.authors id = none → author_delete_get id s =
      [Action.redirect "/catalog/authors",
       Action.renderAuthorDelete "Delete Author" none (booksByAuthor s id)])
  ∧ (findById s.books id = none → book_delete_get id s =
      [Action.redirect "/catalog/books",
       Action.renderBookDelete "Delete Book" none (instancesOfBook s id)])
  ∧ (findById s.genres id = none → genre_delete_get id s =
      [Action.redirect "/catalog/genres",
       Action.renderGenreDelete "Delete Genre" none (booksWithGenre s id)])
  ∧ (findById s.bookinstances id = none → bookinstance_delete_get id s =
      [Action.redirect "/catalog/bookinstances",
       Action.renderBookInstanceDelete "Delete Book Instance" none]) := by
  refine ⟨fun h => ?_, fun h => ?_, fun h => ?_, fun h => ?_⟩ <;>
    simp [author_delete_get, book_delete_get, genre_delete_get,
      bookinstance_delete_get, h]

theorem C7_delete_get_missing_amended_witness :
    author_delete_get "x" emptyStore =
      [Action.redirect "/catalog/authors",
       Action.renderAuthorDelete "Delete Author" none (booksByAuthor emptyStore "x")] ∧
    book_delete_get "x" emptyStore =
      [Action.redirect "/catalog/books",
       Action.renderBookDelete "Delete Book" none (instancesOfBook emptyStore "x")] ∧
    genre_delete_get "x" emptyStore =
      [Action.redirect "/catalog/genres",
       Action.renderGenreDelete "Delete Genre" none (booksWithGenre emptyStore "x")] ∧
    bookinstance_delete_get "x" emptyStore =
      [Action.redirect "/catalog/bookinstances",
       Action.renderBookInstanceDelete "Delete Book Instance" none] :=
  ⟨(C7_delete_get_missing_amended "x" emptyStore).1 rfl,
   (C7_delete_get_missing_amended "x" emptyStore).2.1 rfl,
   (C7_delete_get_missing_amended "x" emptyStore).2.2.1 rfl,
   (C7_delete_get_missing_amended "x" emptyStore).2.2.2 rfl⟩

def C8form : BookForm :=
  { title := "T", author := "a1", summary := "S", isbn := "123",
    genre := GenreField.single "Fantasy" }

/-- C8: the create-submit normalizer turns a single genre value into a
one-element list and an absent field into the empty list, and the created
document carries the one-element list; the update-submit normalizer,
whose guard parses as a Boolean-instanceof-Array test, leaves a single
value untouched, so no normalization happens before validation on the
update path. -/
theorem C8_genre_normalization_eval :
    book_create_genre_normalizer (GenreField.single "Fantasy") =
      GenreField.list ["Fantasy"] ∧
    book_create_genre_normalizer GenreField.undef = GenreField.list [] ∧
    (bookFromCreateForm C8form).genre = ["Fantasy"] ∧
    book_update_genre_normalizer (GenreField.single "Fantasy") =
      GenreField.single "Fantasy" := by
  decide

def C9book : Book :=
  { title := "Emma", author := "a1", summary := "S", isbn := "123", genre := [] }

def C9store : Store := { books := [("b1", C9book)] }

def C9form : BookInstanceForm :=
  { book := "b1", imprint := "", status := "", due_back := none }

/-- C9, counterexample: a BookInstance update-submit with an empty status
fails validation, and the handler re-renders the update form, but the
payload it passes carries no failure list (the errors field is absent from
the render call); the claim as stated requires the list of validation
failures in the redisplay. -/
theorem C9_bookinstance_errors_omitted_counterexample :
    bookinstanceUpdateErrors (fun _ => true) C9form ≠ [] ∧
    bookinstance_update_post "i1" (fun _ => true) C9form C9store =
      (C9store, [Action.renderBookInstanceForm "Update Book Instance" C9store.books
        (some "b1") (bookinstanceFromForm C9store C9form) none]) := by
  constructor
  · decide
  · decide

/-- C9, amended: an update-submit that fails validation performs no store
write and redisplays the update form with the sanitized input and
re-marked selections; Author, Genre and Book include the failure list in
the redisplay, while BookInstance omits it (and its redisplay further
requires the submitted book reference to resolve, else a TypeError
propagates instead, still without a write). -/
theorem C9_update_post_invalid_amended (pid : String) (iso : String → Bool)
    (af : AuthorForm) (gname : String) (bf : BookForm) (binstf : BookInstanceForm)
    (s : Store) :
    (authorUpdateErrors iso af ≠ [] →
      author_update_post pid iso af s =
        (s, [Action.renderAuthorForm "Update Author" (authorFromForm af)
              (some (authorUpdateErrors iso af))]))
  ∧ (genreUpdateErrors gname ≠ [] →
      genre_update_post pid gname s =
        (s, [Action.renderGenreForm "Update Genre" (genreFromName gname)
              (some (genreUpdateErrors gname))]))
  ∧ (bookFormErrors bf ≠ [] →
      book_update_post pid bf s =
        (s, [Action.renderBookForm "Update Book" s.authors
              (markChecked s.genres (bookFromUpdateForm bf).genre)
              (some (bookFromUpdateForm bf)) (some (bookFormErrors bf))]))
  ∧ (∀ b, bookinstanceUpdateErrors iso binstf ≠ [] →
      findById s.books (trimEscape binstf.book) = some b →
      bookinstance_update_post pid iso binstf s =
        (s, [Action.renderBookInstanceForm "Update Book Instance" s.books
              (some (trimEscape binstf.book)) (bookinstanceFromForm s binstf) none])) := by
  refine ⟨fun h => ?_, fun h => ?_, fun h => ?_, fun b h hb => ?_⟩
  · cases hE : authorUpdateErrors iso af with
    | nil => exact absurd hE h
    | cons e t => simp [author_update_post, hE]
  · cases hE : genreUpdateErrors gname with
    | nil => exact absurd hE h
    | cons e t => simp [genre_update_post, hE]
  · cases hE : bookFormErrors bf with
    | nil => exact absurd hE h
    | cons e t => simp [book_update_post, hE]
  · cases hE : bookinstanceUpdateErrors iso binstf with
    | nil => exact absurd hE h
    | cons e t => simp [bookinstance_update_post, bookinstanceFromForm, hE, hb]

def C9authorForm : AuthorForm := { first_name := "", family_name := "Austen" }

theorem C9_update_post_invalid_amended_witness :
    author_update_post "a1" (fun _ => true) C9authorForm C9store =
      (C9store, [Action.renderAuthorForm "Update Author" (authorFromForm C9authorForm)
        (some (authorUpdateErrors (fun _ => true) C9authorForm))]) ∧
    genre_update_post "g1" "  " C9store =
      (C9store, [Action.renderGenreForm "Update Genre" (genreFromName "  ")
        (some (genreUpdateErrors "  "))]) ∧
    book_update_post "b1" C3form C9store =
      (C9store, [Action.renderBookForm "Update Book" C9store.authors
        (markChecked C9store.genres (bookFromUpdateForm C3form).genre)
        (some (bookFromUpdateForm C3form)) (some (bookFormErrors C3form))]) ∧
    bookinstance_update_post "i1" (fun _ => true) C9form C9store =
      (C9store, [Action.renderBookInstanceForm "Update Book Instance" C9store.books
        (some (trimEscape C9form.book)) (bookinstanceFromForm C9store C9form) none]) :=
  ⟨(C9_update_post_invalid_amended "a1" (fun _ => true) C9authorForm "  " C3form
      C9form C9store).1 (by decide),
   (C9_update_post_invalid_amended "g1" (fun _ => true) C9authorForm "  " C3form
      C9form C9store).2.1 (by decide),
   (C9_update_post_invalid_amended "b1" (fun _ => true) C9authorForm "  " C3form
      C9form C9store).2.2.1 (by decide),
   (C9_update_post_invalid_amended "i1" (fun _ => true) C9authorForm "  " C3form
      C9form C9store).2.2.2 C9book (by decide) (by decide)⟩

end LibraryTutorial
